import Mathlib

/-!
Verification development for the dependency handler module of the
Dependency-Handler-for-Blender-Addons repository.

The Python sources (dependency_handler/__init__.py and
dependency_handler/blender_printer.py) are shallowly embedded below.
Process-wide mutable state (the registry all_dependencies, the printer list
all_printers, the flags pip_ensured, _restart_needed, DEPENDENCIES_IMPORTED,
the namespace dict other_globals, and the stream of printer calls) is
threaded explicitly through a PState record.  External effects (module
imports performed by importlib, subprocess invocations, the host
environment) are abstracted into an Env record of response functions.
Python exceptions are modelled with Except; generator functions are
modelled by their fully drained runs, with every subprocess invocation
recorded in the execs field and every printer interaction recorded in the
trace field.

Python string comparison and string splitting are modelled by executable
functions on the underlying character lists, because they must evaluate
inside the kernel: lexLt is code-point lexicographic comparison exactly as
Python compares str values, pySplit models str.split() with no arguments,
and pySplitlines models str.splitlines() for newline-separated text.
-/

/-! ### Python string primitives -/

/-- Code-point lexicographic comparison of character lists, as Python
compares strings. -/
def lexLt : List Char → List Char → Bool
  | [], [] => false
  | [], _ :: _ => true
  | _ :: _, [] => false
  | a :: as, b :: bs => if a < b then true else if b < a then false else lexLt as bs

/-- Python string less-than. -/
def pyLt (a b : String) : Bool := lexLt a.data b.data

/-- Python str whitespace test (the characters str.split treats as
separators). -/
def pyIsSpace (c : Char) : Bool :=
  (c == ' ') || (c == '\t') || (c == '\n') || (c == '\x0d') || (c == '\x0b') || (c == '\x0c')

/-- Helper for pySplit: walks the characters, collecting the current token
in acc (reversed). -/
def splitWsAux : List Char → List Char → List String
  | [], acc => if acc.isEmpty then [] else [String.mk acc.reverse]
  | c :: rest, acc =>
    if pyIsSpace c then
      if acc.isEmpty then splitWsAux rest []
      else String.mk acc.reverse :: splitWsAux rest []
    else splitWsAux rest (c :: acc)

/-- Python str.split() with no arguments: split on whitespace runs,
dropping empty tokens. -/
def pySplit (s : String) : List String := splitWsAux s.data []

/-- Split a character list at newline characters. -/
def splitNl : List Char → List (List Char)
  | [] => [[]]
  | c :: rest =>
    if c = '\n' then [] :: splitNl rest
    else
      match splitNl rest with
      | [] => [[c]]
      | h :: t => (c :: h) :: t

/-- Python str.splitlines() for newline-separated text: the empty string
gives no lines, and a trailing newline does not produce a final empty
line. -/
def pySplitlines (s : String) : List String :=
  if s.data = [] then []
  else
    let parts := splitNl s.data
    let parts := if s.data.getLast? = some '\n' then parts.dropLast else parts
    parts.map (fun cs => String.mk cs)

/-- Python dict assignment on an insertion-ordered association list:
overwrite the value when the key is present, otherwise append. -/
def dictInsert {α : Type} (g : List (String × α)) (k : String) (v : α) : List (String × α) :=
  if g.any (fun p => p.1 == k) then
    g.map (fun p => if p.1 == k then (k, v) else p)
  else g ++ [(k, v)]

/-- A single-quote character, used when rendering Python tuple reprs. -/
def squote : String := String.mk [Char.ofNat 39]

/-- Python repr of an optional version string (None or a quoted str). -/
def pyReprOpt : Option String → String
  | none => "None"
  | some s => squote ++ s ++ squote

/-- Python str of a version-range pair, as printed by the Installing
banner. -/
def pyReprRange (r : Option String × Option String) : String :=
  ("(") ++ pyReprOpt r.1 ++ (", ") ++ pyReprOpt r.2 ++ (")")

/-! ### Data model -/

/-- Exceptions that can cross function boundaries in the embedded code:
ModuleFatalException, SubModuleNotFound (both DepndencyHandlerException
subclasses from the source) and subprocess.CalledProcessError. -/
inductive Exn where
  | moduleFatal (msg : String)
  | subModuleNotFound (msg : String)
  | calledProcessError (code : Int)
deriving DecidableEq

/-- Python runtime errors surfaced by slips in the source (attribute access
on a wrongly typed value, indexing an empty list). -/
inductive PyErr where
  | attributeError
  | indexError
deriving DecidableEq

/-- One observable printer interaction: a log line broadcast by _log to
every registered printer, or a prepare or finish call delivered to one
named printer. -/
inductive Event where
  | log (line : String)
  | prepare (printer : String)
  | finish (printer : String)
deriving DecidableEq

/-- Recogniser for finish events. -/
def Event.isFinish : Event → Bool
  | .finish _ => true
  | _ => false

/-- The Dependency dataclass.  The loaded module object is modelled by its
version attribute (the only part of it the source reads). -/
structure Dependency where
  name : String
  pip_name : String
  version_range : Option String × Option String := (none, none)
  imported : Bool := false
  installed : Bool := false
  submodules : List String := []
  module : Option String := none
  wrong_version : Bool := false
deriving DecidableEq

/-- The version property of a Dependency: the version of the loaded module,
or the empty string when no module is held. -/
def Dependency.version (d : Dependency) : String := d.module.getD ("")

/-- Responses of the external world: importlib imports at declaration time,
at re-import time inside install_me, submodule imports, availability of the
pip module, subprocess runs (output lines and exit code), availability of
bpy, and host platform info strings. -/
structure Env where
  importMod : String → Option String
  reimport : String → Option String
  importSub : String → String → Bool
  pipImportable : Bool
  runCmd : List String → List String × Int
  bpyAvailable : Bool
  sysInfo : String → String

/-- The process-wide state of the module: the registry (declaration
ordered), the caller namespace dict other_globals, the registered printer
names, the pip_ensured and _restart_needed and DEPENDENCIES_IMPORTED flags,
the stream of printer events, and the record of executed subprocess
invocations. -/
structure PState where
  deps : List Dependency
  other_globals : Option (List (String × String))
  printers : List String
  pip_ensured : Bool
  restart : Bool
  deps_imported : Bool
  trace : List Event
  execs : List (List String)
deriving DecidableEq

/-- The sys.executable path used to spawn pip. -/
def pybin : String := "python"

/-! ### Logging and subprocess execution -/

/-- Broadcast one line to every registered printer (the source _log joins
its arguments with spaces and loops over all_printers; the joined line is
recorded once since every printer receives the same text). -/
def _log (st : PState) (line : String) : PState :=
  { st with trace := st.trace ++ [.log line] }

/-- Render of str(subprocess.CalledProcessError) for a given exit code. -/
def cpeStr (code : Int) : String :=
  ("Command returned non-zero exit status ") ++ toString code ++ (".")

/-- The _execute generator: spawn the command, stream every output line as
a log prefixed with two angle brackets, and raise CalledProcessError when
the exit code is non-zero (logging the exit code first). -/
def _execute (env : Env) (st : PState) (args : List String) : PState × Except Exn Unit :=
  let r := env.runCmd args
  let st := { st with execs := st.execs ++ [args],
                      trace := st.trace ++ r.1.map (fun l => .log ((">> ") ++ l)) }
  if r.2 ≠ 0 then
    (_log st (("Exit code: ") ++ toString r.2), .error (.calledProcessError r.2))
  else (st, .ok ())

/-- Command upgrading pip itself. -/
def upgradePipCmd : List String := [pybin, "-m", "pip", "install", "--upgrade", "pip"]

/-- Command bootstrapping pip via ensurepip. -/
def ensurepipCmd : List String := [pybin, "-m", "ensurepip"]

/-- The _ensure_pip generator.  Memoised on pip_ensured.  When pip is
importable it tries a self-upgrade, tolerating failure (the caught
CalledProcessError has stderr None because stderr is merged into stdout).
When pip is missing it runs ensurepip then the upgrade, converting any
CalledProcessError into ModuleFatalException (whose constructor logs the
message). -/
def _ensure_pip (env : Env) (st : PState) : PState × Except Exn Unit :=
  if st.pip_ensured then (st, .ok ())
  else if env.pipImportable then
    let st := _log st ("----- Upgrading PIP -----")
    let ex := _execute env st upgradePipCmd
    let st :=
      match ex.2 with
      | .error _ =>
        let st := _log ex.1 ("Error: Pip module could not be upgraded. Using existing version.")
        _log st ("None")
      | .ok _ => ex.1
    ({ st with pip_ensured := true }, .ok ())
  else
    let st := _log st ("\n----- Pip python package not found. Installing. -----")
    let ex := _execute env st ensurepipCmd
    match ex.2 with
    | .error (.calledProcessError c) =>
      let msg := ("Pip Fatal Exception: ") ++ cpeStr c
      (_log ex.1 (("ModuleFatalException: ") ++ msg), .error (.moduleFatal msg))
    | .error e => (ex.1, .error e)
    | .ok _ =>
      let ex2 := _execute env ex.1 upgradePipCmd
      match ex2.2 with
      | .error (.calledProcessError c) =>
        let msg := ("Pip Fatal Exception: ") ++ cpeStr c
        (_log ex2.1 (("ModuleFatalException: ") ++ msg), .error (.moduleFatal msg))
      | .error e => (ex2.1, .error e)
      | .ok _ =>
        let st := { ex2.1 with pip_ensured := true }
        (_log st ("Done."), .ok ())

/-! ### Namespace exposure -/

/-- Assignment into the caller namespace dict (a no-op when no namespace
was supplied). -/
def setGlobalEntry (st : PState) (k v : String) : PState :=
  match st.other_globals with
  | none => st
  | some g => { st with other_globals := some (dictInsert g k v) }

/-- The submodule loop of _add_to_globals: import each requested submodule
into the namespace; on the first failure log an error line, construct
SubModuleNotFound (which logs its message) and raise it. -/
def addSubs (env : Env) (st : PState) (name : String) : List String → PState × Except Exn Unit
  | [] => (st, .ok ())
  | sub :: rest =>
    if env.importSub name sub then
      addSubs env (setGlobalEntry st sub (name ++ (".") ++ sub)) name rest
    else
      let msg := sub ++ (" of package ") ++ name ++ (" not found")
      let st := _log st (("Error: ") ++ msg)
      let st := _log st (("SubModuleNotFound: ") ++ msg)
      (st, .error (.subModuleNotFound msg))

/-- Dependency._add_to_globals: when the namespace dict is truthy (present
and non-empty), store the parent module under its name and then expose
every requested submodule. -/
def _add_to_globals (env : Env) (st : PState) (name : String) (subs : List String)
    (ver : String) : PState × Except Exn Unit :=
  match st.other_globals with
  | none => (st, .ok ())
  | some g =>
    if g.isEmpty then (st, .ok ())
    else addSubs env { st with other_globals := some (dictInsert g name ver) } name subs

/-! ### Dependency construction and declaration API -/

/-- The wrong-version test of Dependency.__post_init__, including the
Python truthiness of the bounds (a None bound and an empty-string bound are
both skipped): the installed version is out of range when it is below a
truthy lower bound or above a truthy upper bound, comparing code-point
lexicographically. -/
def versionOutOfRange (v : String) (r : Option String × Option String) : Bool :=
  (match r.1 with
   | none => false
   | some lo => (lo != ("")) && pyLt v lo) ||
  (match r.2 with
   | none => false
   | some hi => (hi != ("")) && pyLt hi v)

/-- Dependency.__post_init__: register the new Dependency, default the pip
name, attempt a pure import; on success either flag wrong_version or mark
imported and installed and expose to the namespace (the submodule list is
always empty at construction, so the exposure cannot raise).  The source
registers the object before mutating it; since nothing reads the registry
in between, the fully initialised Dependency is appended here. -/
def mkDependency (env : Env) (st : PState) (name pip_name0 : String)
    (vr : Option String × Option String) : PState × Dependency :=
  let pip_name := if pip_name0 == ("") then name else pip_name0
  let d0 : Dependency := { name := name, pip_name := pip_name, version_range := vr }
  match env.importMod name with
  | none => ({ st with deps := st.deps ++ [d0] }, d0)
  | some v =>
    if versionOutOfRange v vr then
      let d := { d0 with module := some v, wrong_version := true }
      ({ st with deps := st.deps ++ [d] }, d)
    else
      let d := { d0 with module := some v, imported := true, installed := true }
      let st := (_add_to_globals env st name [] v).1
      ({ st with deps := st.deps ++ [d] }, d)

/-- Registry lookup by module name. -/
def lookupDep (deps : List Dependency) (name : String) : Option Dependency :=
  deps.find? (fun d => d.name == name)

/-- The accepted shapes of the module_name argument of FROM: a bare name,
(name, pip_name), (name, version_range) or (name, pip_name,
version_range). -/
inductive ModuleSpec where
  | plain (name : String)
  | withPip (name pip : String)
  | withRange (name : String) (vr : Option String × Option String)
  | withPipRange (name pip : String) (vr : Option String × Option String)
deriving DecidableEq

/-- The module name extracted by the match statement of FROM. -/
def specName : ModuleSpec → String
  | .plain n => n
  | .withPip n _ => n
  | .withRange n _ => n
  | .withPipRange n _ _ => n

/-- The pip name extracted by the match statement of FROM (defaulting to
the module name). -/
def specPip : ModuleSpec → String
  | .plain n => n
  | .withPip _ p => p
  | .withRange n _ => n
  | .withPipRange _ p _ => p

/-- The version range extracted by the match statement of FROM (defaulting
to a pair of None). -/
def specRange : ModuleSpec → Option String × Option String
  | .plain _ => (none, none)
  | .withPip _ _ => (none, none)
  | .withRange _ r => r
  | .withPipRange _ _ r => r

/-- FROM: return the registered Dependency for the name when one exists
(ignoring the new arguments), otherwise construct and register one. -/
def FROM (env : Env) (st : PState) (m : ModuleSpec) : PState × Dependency :=
  match lookupDep st.deps (specName m) with
  | some d => (st, d)
  | none => mkDependency env st (specName m) (specPip m) (specRange m)

/-- IMPORT: sugar returning the imported flag of FROM. -/
def IMPORT (env : Env) (st : PState) (m : ModuleSpec) : PState × Bool :=
  let r := FROM env st m
  (r.1, r.2.imported)

/-- init: register the printers (plus a console printer when requested),
install the namespace dict, declare every dependency through FROM (the set
comprehension of the source evaluates every FROM call), and return whether
all of them imported. -/
def init (env : Env) (st : PState) (dependencies : List ModuleSpec)
    (module_globals : Option (List (String × String)))
    (printers : List String) (use_console : Bool) : PState × Bool :=
  let st := { st with printers :=
    st.printers ++ printers ++ (if use_console then [("ConsolePrinter")] else []) }
  let st := { st with other_globals := module_globals }
  let r := dependencies.foldl
    (fun (acc : PState × Bool) m =>
      let fr := FROM env acc.1 m
      (fr.1, acc.2 && fr.2.imported))
    (st, true)
  r

/-! ### Per-dependency installation -/

/-- The pip constraint string built by install_me from the version range
(the match in the source is on types, so even empty-string bounds are
embedded). -/
def packageName (d : Dependency) : String :=
  match d.version_range with
  | (some a, none) => d.pip_name ++ (">=") ++ a
  | (none, some b) => d.pip_name ++ ("<=") ++ b
  | (some a, some b) => d.pip_name ++ (">=") ++ a ++ (",<=") ++ b
  | (none, none) => d.pip_name

/-- The pip invocation install_me executes for a dependency. -/
def installCmd (d : Dependency) : List String :=
  [pybin, "-m", "pip", "install", "--upgrade", "--upgrade-strategy",
   "only-if-needed", "--user", packageName d]

/-- The Installing banner line (the source joins the arguments of _log with
single spaces, and the version-range tuple is always truthy so its repr is
always printed). -/
def installingHeader (d : Dependency) : String :=
  ("\n----- Installing  ") ++ (d.pip_name ++ (" ") ++ pyReprRange d.version_range ++ (" -----"))

/-- Tail of the message logged when the installer fails while the
dependency was in wrong_version state. -/
def msgPossiblyFailed : String :=
  (" module installation possibly failed or the temporary files could not be deleted after reinstalling the package. If this is the case, temp files can be deleted manually after closing Blender. Trying to import...")

/-- Tail of the message logged when the installer fails otherwise. -/
def msgInstallFailed : String := (" module installation failed.")

/-- The restart notice logged when a wrong-version module was reinstalled. -/
def msgReload : String := ("\n Module needs to be reloaded. Please restart Blender.")

/-- The restart notice logged by the pipeline on success. -/
def msgReloadAll : String := ("\n Modules need to be reloaded. Please restart Blender.")

/-- The log line of install_me when the post-install import fails. -/
def msgImportFailed (d : Dependency) : String :=
  (d.pip_name ++ (" installation finished but ") ++ d.name) ++
    (" import failed. Try restarting Blender.")

/-- Dependency.install_me, fully drained: return immediately when already
imported; ensure pip (propagating its fatal exception); run the pip
install; on a non-zero exit either stop with failure or, when the
dependency was in wrong_version state, tolerate the error; re-import the
module; on success set the sticky restart flag when recovering from
wrong_version, mark installed and imported, clear wrong_version and expose
to the namespace (which may raise SubModuleNotFound); on import failure log
a restart recommendation and report failure.  The version range is not
re-checked after installation. -/
def install_me (env : Env) (st : PState) (d : Dependency) :
    PState × Dependency × Except Exn Bool :=
  if d.imported then (st, d, .ok true)
  else
    let ep := _ensure_pip env st
    match ep.2 with
    | .error e => (ep.1, d, .error e)
    | .ok _ =>
      let st := _log ep.1 (installingHeader d)
      let ex := _execute env st (installCmd d)
      let cont : Option PState :=
        match ex.2 with
        | .ok _ => some ex.1
        | .error _ =>
          if d.wrong_version then some (_log ex.1 (d.pip_name ++ msgPossiblyFailed))
          else none
      match cont with
      | none => (_log ex.1 (d.pip_name ++ msgInstallFailed), d, .ok false)
      | some st =>
        match env.reimport d.name with
        | some v =>
          let st := if d.wrong_version then _log { st with restart := true } msgReload else st
          let d2 := { d with module := some v, installed := true, imported := true,
                             wrong_version := false }
          let ag := _add_to_globals env st d2.name d2.submodules v
          match ag.2 with
          | .error e => (ag.1, d2, .error e)
          | .ok _ => (_log ag.1 ("Done."), d2, .ok true)
        | none => (_log st (msgImportFailed d), d, .ok false)

/-! ### The installation pipeline -/

/-- The loop of install_all_generator over the registry, returning the
updated state, the registry with every processed Dependency replaced by its
updated value (the source mutates the objects held by the dict), and the
first escaping exception when one occurs. -/
def installLoop (env : Env) (st : PState) : List Dependency →
    PState × List Dependency × Except Exn Unit
  | [] => (st, [], .ok ())
  | d :: rest =>
    let r := install_me env st d
    match r.2.2 with
    | .error e => (r.1, r.2.1 :: rest, .error e)
    | .ok _ =>
      let lr := installLoop env r.1 rest
      (lr.1, r.2.1 :: lr.2.1, lr.2.2)

/-- check_all_loaded: recompute and store DEPENDENCIES_IMPORTED. -/
def check_all_loaded (st : PState) : PState × Bool :=
  let b := st.deps.all (fun d => d.imported)
  ({ st with deps_imported := b }, b)

/-- The success banner of the pipeline. -/
def bannerSuccess : String := ("\n\n---------- Installation Successful ----------")

/-- The failure banner logged unconditionally by the finally block. -/
def bannerFailed : String := ("\n\n---------- Installation Failed ----------")

/-- The header of the diagnostic dump of the finally block. -/
def sysInfoHeader : String := ("\n\n ------ System Info ------\n")

/-- Render of str(module object) in the diagnostic dump. -/
def moduleStr : Option String → String
  | none => "None"
  | some v => ("<module version ") ++ v ++ (">")

/-- The Blender section of the diagnostic dump.  The source wraps it in a
bare try/except that swallows any failure; the host values are abstracted
through Env. -/
def bpyInfoDelta (env : Env) : List Event :=
  if env.bpyAvailable then
    [.log ("\nBlender info:"),
     .log ((" bpy.app.version: ") ++ env.sysInfo ("bpy.app.version")),
     .log ((" Addon Name: ") ++ env.sysInfo ("addon_name")),
     .log ((" Addon Version: ") ++ env.sysInfo ("addon_version")),
     .log ((" bpy.app.binary_path: ") ++ env.sysInfo ("binary_path")),
     .log ("\n")]
  else []

/-- The imported-modules section of the diagnostic dump (one line per
currently imported dependency, re-importing it to render the module). -/
def importedModulesDelta (env : Env) (deps : List Dependency) : List Event :=
  deps.filterMap (fun d =>
    if d.imported then
      some (.log ((" ") ++ (d.name ++ (": ") ++ moduleStr (env.reimport d.name))))
    else none)

/-- Every printer event appended by the finally block of
install_all_generator: the diagnostic dump, the unconditional failure
banner, and one finish call per registered printer. -/
def finallyDelta (env : Env) (st : PState) : List Event :=
  .log sysInfoHeader ::
  (bpyInfoDelta env ++
   [.log ((" sys.executable: ") ++ pybin), .log ("\nImported modules:")] ++
   importedModulesDelta env st.deps ++
   [.log (("\n platform.machine: ") ++ env.sysInfo ("machine")),
    .log (("\n platform.platform: ") ++ env.sysInfo ("platform")),
    .log (("\n platform.platform: ") ++ env.sysInfo ("platform")),
    .log (("\n platform.processor: ") ++ env.sysInfo ("processor")),
    .log bannerFailed] ++
   st.printers.map (fun p => .finish p))

/-- Application of the finally block (it only emits printer events). -/
def finallyBlock (env : Env) (st : PState) : PState :=
  { st with trace := st.trace ++ finallyDelta env st }

/-- install_all_generator, fully drained: broadcast prepare, run install_me
for every registered dependency, recompute DEPENDENCIES_IMPORTED, log the
success banner (plus the restart notice when the sticky flag is set) when
everything loaded, run the finally block in every case, and re-raise
SubModuleNotFound and ModuleFatalException (any other exception is logged
before re-raising). -/
def install_all_generator (env : Env) (st : PState) : PState × Except Exn Bool :=
  let st := { st with trace := st.trace ++ st.printers.map (fun p => .prepare p) }
  let lr := installLoop env st st.deps
  let st1 := { lr.1 with deps := lr.2.1 }
  match lr.2.2 with
  | .ok _ =>
    let ck := check_all_loaded st1
    if ck.2 then
      let st2 := _log ck.1 bannerSuccess
      let st2 := if st2.restart then _log st2 msgReloadAll else st2
      (finallyBlock env st2, .ok true)
    else (finallyBlock env ck.1, .ok false)
  | .error e =>
    let st2 :=
      match e with
      | .calledProcessError c => _log st1 (cpeStr c)
      | _ => st1
    (finallyBlock env st2, .error e)

/-- install_all: drain the generator (propagating its exceptions) and
return check_all_loaded. -/
def install_all (env : Env) (st : PState) : PState × Except Exn Bool :=
  let g := install_all_generator env st
  match g.2 with
  | .error e => (g.1, .error e)
  | .ok _ =>
    let ck := check_all_loaded g.1
    (ck.1, .ok ck.2)

/-! ### Aggregate queries -/

/-- is_restart_needed as written in the source: the expression iterates the
all_dependencies dict directly, which yields the string keys, and then
reads dep.installed on a str.  On a non-empty registry the first generator
item therefore raises AttributeError inside any(); on an empty registry
any() of the empty generator returns False. -/
def is_restart_needed (st : PState) : Except PyErr Bool :=
  match st.deps with
  | [] => .ok false
  | _ :: _ => .error .attributeError

/-! ### Update inspector -/

/-- The parsing loop of list_module_updates: for each line take the
whitespace tokens without the last one, index token zero (raising
IndexError when no token remains) and assign the rest as the value. -/
def parseOutdatedLines (acc : List (String × List String)) :
    List String → Except PyErr (List (String × List String))
  | [] => .ok acc
  | line :: rest =>
    match (pySplit line).dropLast with
    | [] => .error .indexError
    | name :: vers => parseOutdatedLines (dictInsert acc name vers) rest

/-- list_module_updates: run pip list outdated with check enabled, so a
non-zero exit raises CalledProcessError before any parsing and the handler
returns the still-empty dict; otherwise parse the stdout lines after the
fixed two-line header.  IndexError from a malformed line is not caught. -/
def list_module_updates (exitCode : Int) (stdout : String) :
    Except PyErr (List (String × List String)) :=
  if exitCode ≠ 0 then .ok []
  else parseOutdatedLines [] ((pySplitlines stdout).drop 2)

/-! ### Printer exception containment -/

/-- A registered printer front-end, identified (for instance identity) by a
numeric id, carrying the qualified name of its class. -/
structure Printer where
  id : Nat
  className : String
deriving DecidableEq

/-- PrinterInterface.catch_exceptions: the wrapper around a printer method.
The argument exn is the exception the wrapped method raised, when it raised
one.  The wrapper always returns normally; when the method raised and
use_fallback_log is set, the failure line is sent to every registered
printer whose class qualified name differs from the class that defined the
failing method (the first component of the qualified name of f).  The
deliveries are returned as printer and line pairs. -/
def catch_exceptions (use_fallback_log : Bool) (all_printers : List Printer)
    (definingClass fQualname : String) (exn : Option String) :
    Except String Unit × List (Printer × String) :=
  match exn with
  | none => (.ok (), [])
  | some e =>
    if use_fallback_log then
      (.ok (),
       (all_printers.filter (fun p => p.className != definingClass)).map
         (fun p => (p, ("Printer ") ++ fQualname ++ (" error: ") ++ e)))
    else (.ok (), [])

/-! ### The update-in-range check of the GUI (blender_printer.py) -/

/-- The _update_in_range helper of blender_printer: a candidate latest
version is offered only when the dependency holds a module and the latest
version lies within the truthy bounds of the declared range. -/
def _update_in_range (latest : String) (d : Dependency) : Bool :=
  match d.module with
  | none => false
  | some _ =>
    let vmin := d.version_range.1
    let vmax := d.version_range.2
    let tmin := match vmin with | none => false | some s => s != ("")
    let tmax := match vmax with | none => false | some s => s != ("")
    if !(tmin || tmax) then true
    else
      let ret := true
      let ret := if tmin then ret && !pyLt latest (vmin.getD ("")) else ret
      if tmax then ret && !pyLt (vmax.getD ("")) latest else ret

/-! ### Trace predicates used by the pipeline theorems -/

/-- An event is a safe log line: a log whose text is not the failure
banner. -/
def safeEv (e : Event) : Prop := ∃ l, e = Event.log l ∧ l ≠ bannerFailed

/-- One state extends another by printer-preserving, safe log output only
(no prepare or finish events, no failure banner): the shape of everything
the try block of install_all_generator emits. -/
def TryStep (st st2 : PState) : Prop :=
  st2.printers = st.printers ∧ ∃ Δ, st2.trace = st.trace ++ Δ ∧ ∀ e ∈ Δ, safeEv e

/-! ### Concrete environments and states used by witnesses -/

/-- The empty process state at module load. -/
def stEmpty : PState :=
  { deps := [], other_globals := none, printers := [], pip_ensured := false,
    restart := false, deps_imported := false, trace := [], execs := [] }

/-- An environment where no module is importable and every command
succeeds. -/
def envNoModules : Env :=
  { importMod := fun _ => none, reimport := fun _ => none,
    importSub := fun _ _ => true, pipImportable := true,
    runCmd := fun _ => ([], 0), bpyAvailable := false, sysInfo := fun _ => ("") }

/-- An environment where module m is importable at version 1.0 both before
and after installation, and every pip invocation exits non-zero. -/
def envWrongVersion : Env :=
  { importMod := fun n => if n == ("m") then some ("1.0") else none,
    reimport := fun n => if n == ("m") then some ("1.0") else none,
    importSub := fun _ _ => true, pipImportable := true,
    runCmd := fun _ => ([], 1), bpyAvailable := false, sysInfo := fun _ => ("") }

/-- Declaration of m with a lower bound 2.0 in envWrongVersion: the state
after construction. -/
def stWrong : PState := (mkDependency envWrongVersion stEmpty ("m") ("m") (some ("2.0"), none)).1

/-- Declaration of m with a lower bound 2.0 in envWrongVersion: the
constructed Dependency (wrong_version is set). -/
def depWrong : Dependency := (mkDependency envWrongVersion stEmpty ("m") ("m") (some ("2.0"), none)).2

/-- A dependency already imported at declaration time. -/
def depImp : Dependency :=
  { name := "ok", pip_name := "ok", imported := true, installed := true, module := some ("1.0") }

/-- A registry holding one imported dependency. -/
def stAllImported : PState := { stEmpty with deps := [depImp] }

/-- Dependency alpha, never importable, whose installer invocation fails. -/
def depA0 : Dependency := { name := "alpha", pip_name := "alpha" }

/-- Dependency beta, importable after installation. -/
def depB0 : Dependency := { name := "beta", pip_name := "beta" }

/-- An environment where the installer fails for alpha and succeeds for
beta, and beta imports after installation. -/
def envPartial : Env :=
  { importMod := fun _ => none,
    reimport := fun n => if n == ("beta") then some ("1.0") else none,
    importSub := fun _ _ => true, pipImportable := true,
    runCmd := fun args => if args == installCmd depA0 then ([], 1) else ([], 0),
    bpyAvailable := false, sysInfo := fun _ => ("") }

/-- Registry with alpha and beta declared and pip already ensured. -/
def stPartial : PState := { stEmpty with deps := [depA0, depB0], pip_ensured := true }

/-- A dependency that is not yet imported. -/
def depU : Dependency := { name := "u", pip_name := "u" }

/-- An environment where pip is not importable and every command (in
particular ensurepip) exits non-zero. -/
def envNoPip : Env :=
  { importMod := fun _ => none, reimport := fun _ => none,
    importSub := fun _ _ => true, pipImportable := false,
    runCmd := fun _ => ([], 1), bpyAvailable := false, sysInfo := fun _ => ("") }

/-- Registry with one unimported dependency and pip not ensured. -/
def stNoPip : PState := { stEmpty with deps := [depU] }

/-- A well-formed pip list outdated output: two header lines then rows of
name, current version, latest version and wheel type. -/
def goodOutdatedOutput : String :=
  "Package Version Latest Type\n------- ------- ------ -----\nPillow 9.1.1 9.2.0 wheel\nnumpy 1.22.0 1.23.3 wheel"

/-- A malformed pip list outdated output whose data line has a single
token. -/
def badOutdatedOutput : String :=
  "Package Version Latest Type\n------- ------- ------ -----\nfoo"

/-- Decidable equality of Except results, used to evaluate the embedded
functions on concrete inputs. -/
instance {m n : Type} [DecidableEq m] [DecidableEq n] : DecidableEq (Except m n) := fun x y =>
  match x, y with
  | .ok a, .ok b => decidable_of_iff (a = b) (by simp)
  | .error a, .error b => decidable_of_iff (a = b) (by simp)
  | .ok _, .error _ => isFalse (fun h => by cases h)
  | .error _, .ok _ => isFalse (fun h => by cases h)

/-! ### String helper lemmas -/

theorem string_append_ne_of_head (p x t : String) (i : Nat) (c : Char)
    (h1 : ((p.data ++ x.data).drop i).head? = some c)
    (h2 : ((t.data.drop i)).head? ≠ some c) : p ++ x ≠ t :=
  fun he => h2 (by rw [← he, String.data_append]; exact h1)

theorem string_append_ne_of_rev (x s t : String) (i : Nat) (c : Char)
    (h1 : ((s.data.reverse ++ x.data.reverse).drop i).head? = some c)
    (h2 : ((t.data.reverse.drop i)).head? ≠ some c) : x ++ s ≠ t :=
  fun he => h2 (by rw [← he, String.data_append, List.reverse_append]; exact h1)

theorem pyLt_empty_right (v : String) : pyLt v ("") = false := by
  unfold pyLt
  cases v.data <;> rfl

/-! ### Claim C2 -/

/--
C2.  The claim states that the installed version is judged acceptable (no
wrong_version) iff (min absent or v at least min) and (max absent or v at
most max), lexically.  This fails when the declared upper bound is the
empty string: Python truthiness treats an empty-string bound as no bound,
so the code accepts version 1.0 against the range (None, empty), while the
claim requires v at most max, which fails because empty is lexically below
1.0.  At this concrete input the claim right-hand side reduces to the
max-side condition pyLt max v = false.
-/
theorem version_acceptance_counterexample :
    ¬ (versionOutOfRange ("1.0") (none, some ("")) = false ↔
        pyLt ("") ("1.0") = false) := by decide

/--
C2 (amended).  For every installed-version string v and every pair of
independently optional bounds, the version is judged acceptable (no
wrong_version) iff (min is absent or empty — an empty-string bound is
falsy in Python and skipped — or v is at least min lexically) and (max is
absent or empty or v is at most max lexically).
-/
theorem version_acceptance_amended (v : String) (r : Option String × Option String) :
    versionOutOfRange v r = false ↔
      ((∀ lo, r.1 = some lo → lo ≠ ("") → pyLt v lo = false) ∧
       (∀ hi, r.2 = some hi → hi ≠ ("") → pyLt hi v = false)) := by
  obtain ⟨o1, o2⟩ := r
  have hb : ∀ (s : String) (b : Bool), (((s != ("")) && b) = false ↔ (s ≠ ("") → b = false)) := by
    intro s b
    by_cases hs : s = ("")
    · subst hs; simp
    · simp [hs]
  cases o1 <;> cases o2 <;>
    simp [versionOutOfRange, hb]

/-- Witness instantiating the amended C2 at a concrete in-range input. -/
theorem version_acceptance_amended_witness :
    versionOutOfRange ("1.5") (some ("1.0"), some ("2.0")) = false ∧
    pyLt ("1.5") ("1.0") = false ∧ pyLt ("2.0") ("1.5") = false := by
  refine ⟨?_, by decide, by decide⟩
  exact (version_acceptance_amended ("1.5") (some ("1.0"), some ("2.0"))).mpr
    ⟨fun lo hlo _ => by cases hlo; decide, fun hi hhi _ => by cases hhi; decide⟩

/-! ### Claim C7 -/

/--
C7.  The claim states that is_restart_needed returns true iff some
registered Dependency is installed and not imported, and returns rather
than raises on every registry state.  The code iterates the
all_dependencies dict itself, which yields the string keys, and reads the
installed attribute of a str: on every non-empty registry the call raises
AttributeError (only the empty registry returns False).  The theorem
evaluates the embedded code on the empty registry and on a registry
populated by one FROM declaration.
-/
theorem is_restart_needed_raises_on_nonempty_registry :
    is_restart_needed stEmpty = .ok false ∧
    is_restart_needed (FROM envNoModules stEmpty (.plain ("m"))).1 = .error .attributeError :=
  ⟨rfl, rfl⟩

/-! ### Claim C9 -/

/--
C9.  The claim states list_module_updates never raises.  On this malformed
output (well-formed two-line header, then a data line with a single
whitespace token) the parsing loop takes the tokens without the last one,
leaving an empty list, and indexing it raises an uncaught IndexError.
-/
theorem list_module_updates_malformed_raises :
    list_module_updates 0 badOutdatedOutput = .error .indexError := by decide

/-- Helper: the parsing loop returns normally when every line keeps at
least one token after dropping the last one. -/
theorem parseOutdatedLines_ok (lines : List String) : ∀ acc,
    (∀ l ∈ lines, 2 ≤ (pySplit l).length) →
    ∃ m, parseOutdatedLines acc lines = .ok m := by
  induction lines with
  | nil => exact fun acc _ => ⟨acc, rfl⟩
  | cons l rest ih =>
    intro acc h
    have hl := h l (by simp)
    cases hd : (pySplit l).dropLast with
    | nil =>
      exfalso
      have := List.length_dropLast (pySplit l)
      rw [hd] at this
      simp at this
      omega
    | cons name vers =>
      have := ih (dictInsert acc name vers) (fun x hx => h x (by simp [hx]))
      simpa [parseOutdatedLines, hd] using this

/--
C9 (amended).  list_module_updates returns the empty mapping on every
non-zero exit (the CalledProcessError raised by check=True fires before
any parsing, so nothing is ever collected); on well-formed output it skips
the fixed two-line header and maps each package name to its current and
latest versions; but a data line with fewer than two whitespace tokens
raises an uncaught IndexError (previous theorem).
-/
theorem list_module_updates_amended :
    (∀ (code : Int) (stdout : String), code ≠ 0 →
      list_module_updates code stdout = .ok []) ∧
    (∀ stdout, (∀ l ∈ (pySplitlines stdout).drop 2, 2 ≤ (pySplit l).length) →
      ∃ m, list_module_updates 0 stdout = .ok m) ∧
    list_module_updates 0 goodOutdatedOutput =
      .ok [(("Pillow"), [("9.1.1"), ("9.2.0")]), (("numpy"), [("1.22.0"), ("1.23.3")])] := by
  refine ⟨?_, ?_, by decide⟩
  · intro code stdout h
    simp [list_module_updates, h]
  · intro stdout h
    have := parseOutdatedLines_ok ((pySplitlines stdout).drop 2) [] h
    simpa [list_module_updates] using this

/-- Witness instantiating the amended C9: a non-zero exit yields the empty
mapping. -/
theorem list_module_updates_amended_witness :
    list_module_updates 1 ("anything") = .ok [] :=
  list_module_updates_amended.1 1 ("anything") (by decide)

/-! ### Claim C8 -/

/--
C8.  The claim states that an exception inside one sink is contained and a
failure line is delivered to every other registered sink.  The filter of
catch_exceptions compares class qualified names, so a second sink of the
same class as the failing sink receives nothing: with two FilePrinter
instances and one ConsolePrinter, a failure in the first FilePrinter is
delivered only to the ConsolePrinter, although the second FilePrinter is
another registered sink.
-/
theorem catch_exceptions_same_class_counterexample :
    (catch_exceptions true
        [⟨0, ("FilePrinter")⟩, ⟨1, ("FilePrinter")⟩, ⟨2, ("ConsolePrinter")⟩]
        ("FilePrinter") ("FilePrinter.log") (some ("boom"))).1 = .ok () ∧
    (Printer.mk 1 ("FilePrinter")) ∈
      [Printer.mk 0 ("FilePrinter"), Printer.mk 1 ("FilePrinter"), Printer.mk 2 ("ConsolePrinter")] ∧
    (catch_exceptions true
        [⟨0, ("FilePrinter")⟩, ⟨1, ("FilePrinter")⟩, ⟨2, ("ConsolePrinter")⟩]
        ("FilePrinter") ("FilePrinter.log") (some ("boom"))).2.map Prod.fst =
      [Printer.mk 2 ("ConsolePrinter")] := by decide

/--
C8 (amended).  An exception raised inside a wrapped sink method is never
propagated (the wrapper returns normally whether or not the method
raised), and the failure line is delivered exactly to the registered sinks
whose class qualified name differs from the class that defined the failing
method; sinks of that same class, including other instances of it, are
skipped.
-/
theorem catch_exceptions_amended (ps : List Printer) (dc qn e : String) (p : Printer) :
    (catch_exceptions true ps dc qn (some e)).1 = .ok () ∧
    (catch_exceptions true ps dc qn none).1 = .ok () ∧
    (p ∈ (catch_exceptions true ps dc qn (some e)).2.map Prod.fst ↔
      p ∈ ps ∧ p.className ≠ dc) := by
  refine ⟨rfl, rfl, ?_⟩
  simp [catch_exceptions, List.mem_filter]

/-! ### Field preservation lemmas -/

@[simp] theorem _log_deps (st : PState) (l : String) : (_log st l).deps = st.deps := rfl

@[simp] theorem _log_globals (st : PState) (l : String) : (_log st l).other_globals = st.other_globals := rfl

@[simp] theorem _log_printers (st : PState) (l : String) : (_log st l).printers = st.printers := rfl

@[simp] theorem _log_pip (st : PState) (l : String) : (_log st l).pip_ensured = st.pip_ensured := rfl

@[simp] theorem _log_restart (st : PState) (l : String) : (_log st l).restart = st.restart := rfl

@[simp] theorem _log_di (st : PState) (l : String) : (_log st l).deps_imported = st.deps_imported := rfl

@[simp] theorem _log_execs (st : PState) (l : String) : (_log st l).execs = st.execs := rfl

@[simp] theorem _log_trace (st : PState) (l : String) : (_log st l).trace = st.trace ++ [.log l] := rfl

@[simp] theorem finallyBlock_deps (env : Env) (st : PState) : (finallyBlock env st).deps = st.deps := rfl

@[simp] theorem finallyBlock_globals (env : Env) (st : PState) : (finallyBlock env st).other_globals = st.other_globals := rfl

@[simp] theorem finallyBlock_printers (env : Env) (st : PState) : (finallyBlock env st).printers = st.printers := rfl

@[simp] theorem finallyBlock_pip (env : Env) (st : PState) : (finallyBlock env st).pip_ensured = st.pip_ensured := rfl

@[simp] theorem finallyBlock_restart (env : Env) (st : PState) : (finallyBlock env st).restart = st.restart := rfl

@[simp] theorem finallyBlock_di (env : Env) (st : PState) : (finallyBlock env st).deps_imported = st.deps_imported := rfl

@[simp] theorem finallyBlock_execs (env : Env) (st : PState) : (finallyBlock env st).execs = st.execs := rfl

@[simp] theorem check_all_loaded_fst_deps (st : PState) : (check_all_loaded st).1.deps = st.deps := rfl

@[simp] theorem check_all_loaded_fst_trace (st : PState) : (check_all_loaded st).1.trace = st.trace := rfl

@[simp] theorem check_all_loaded_fst_execs (st : PState) : (check_all_loaded st).1.execs = st.execs := rfl

@[simp] theorem check_all_loaded_fst_printers (st : PState) : (check_all_loaded st).1.printers = st.printers := rfl

@[simp] theorem check_all_loaded_fst_restart (st : PState) : (check_all_loaded st).1.restart = st.restart := rfl

@[simp] theorem check_all_loaded_fst_di (st : PState) : (check_all_loaded st).1.deps_imported = st.deps.all (fun d => d.imported) := rfl

@[simp] theorem check_all_loaded_snd (st : PState) : (check_all_loaded st).2 = st.deps.all (fun d => d.imported) := rfl

@[simp] theorem setGlobalEntry_deps (st : PState) (k v : String) : (setGlobalEntry st k v).deps = st.deps := by
  unfold setGlobalEntry; cases st.other_globals <;> rfl

@[simp] theorem setGlobalEntry_printers (st : PState) (k v : String) : (setGlobalEntry st k v).printers = st.printers := by
  unfold setGlobalEntry; cases st.other_globals <;> rfl

@[simp] theorem setGlobalEntry_pip (st : PState) (k v : String) : (setGlobalEntry st k v).pip_ensured = st.pip_ensured := by
  unfold setGlobalEntry; cases st.other_globals <;> rfl

@[simp] theorem setGlobalEntry_restart (st : PState) (k v : String) : (setGlobalEntry st k v).restart = st.restart := by
  unfold setGlobalEntry; cases st.other_globals <;> rfl

@[simp] theorem setGlobalEntry_di (st : PState) (k v : String) : (setGlobalEntry st k v).deps_imported = st.deps_imported := by
  unfold setGlobalEntry; cases st.other_globals <;> rfl

@[simp] theorem setGlobalEntry_execs (st : PState) (k v : String) : (setGlobalEntry st k v).execs = st.execs := by
  unfold setGlobalEntry; cases st.other_globals <;> rfl

@[simp] theorem setGlobalEntry_trace (st : PState) (k v : String) : (setGlobalEntry st k v).trace = st.trace := by
  unfold setGlobalEntry; cases st.other_globals <;> rfl

@[simp] theorem addSubs_deps (env : Env) (name : String) (subs : List String) : ∀ (st : PState),
    (addSubs env st name subs).1.deps = st.deps := by
  induction subs with
  | nil => intro st; rfl
  | cons s rest ih =>
    intro st
    unfold addSubs
    split <;> simp [ih]

@[simp] theorem addSubs_restart (env : Env) (name : String) (subs : List String) : ∀ (st : PState),
    (addSubs env st name subs).1.restart = st.restart := by
  induction subs with
  | nil => intro st; rfl
  | cons s rest ih =>
    intro st
    unfold addSubs
    split <;> simp [ih]

@[simp] theorem addSubs_execs (env : Env) (name : String) (subs : List String) : ∀ (st : PState),
    (addSubs env st name subs).1.execs = st.execs := by
  induction subs with
  | nil => intro st; rfl
  | cons s rest ih =>
    intro st
    unfold addSubs
    split <;> simp [ih]

@[simp] theorem addSubs_printers (env : Env) (name : String) (subs : List String) : ∀ (st : PState),
    (addSubs env st name subs).1.printers = st.printers := by
  induction subs with
  | nil => intro st; rfl
  | cons s rest ih =>
    intro st
    unfold addSubs
    split <;> simp [ih]

@[simp] theorem addSubs_pip (env : Env) (name : String) (subs : List String) : ∀ (st : PState),
    (addSubs env st name subs).1.pip_ensured = st.pip_ensured := by
  induction subs with
  | nil => intro st; rfl
  | cons s rest ih =>
    intro st
    unfold addSubs
    split <;> simp [ih]

@[simp] theorem addSubs_di (env : Env) (name : String) (subs : List String) : ∀ (st : PState),
    (addSubs env st name subs).1.deps_imported = st.deps_imported := by
  induction subs with
  | nil => intro st; rfl
  | cons s rest ih =>
    intro st
    unfold addSubs
    split <;> simp [ih]

@[simp] theorem _add_to_globals_deps (env : Env) (st : PState) (name : String)
    (subs : List String) (ver : String) :
    (_add_to_globals env st name subs ver).1.deps = st.deps := by
  unfold _add_to_globals
  cases st.other_globals with
  | none => rfl
  | some g => simp only []; split <;> simp

@[simp] theorem _add_to_globals_restart (env : Env) (st : PState) (name : String)
    (subs : List String) (ver : String) :
    (_add_to_globals env st name subs ver).1.restart = st.restart := by
  unfold _add_to_globals
  cases st.other_globals with
  | none => rfl
  | some g => simp only []; split <;> simp

@[simp] theorem _add_to_globals_execs (env : Env) (st : PState) (name : String)
    (subs : List String) (ver : String) :
    (_add_to_globals env st name subs ver).1.execs = st.execs := by
  unfold _add_to_globals
  cases st.other_globals with
  | none => rfl
  | some g => simp only []; split <;> simp

@[simp] theorem _add_to_globals_printers (env : Env) (st : PState) (name : String)
    (subs : List String) (ver : String) :
    (_add_to_globals env st name subs ver).1.printers = st.printers := by
  unfold _add_to_globals
  cases st.other_globals with
  | none => rfl
  | some g => simp only []; split <;> simp

@[simp] theorem _add_to_globals_pip (env : Env) (st : PState) (name : String)
    (subs : List String) (ver : String) :
    (_add_to_globals env st name subs ver).1.pip_ensured = st.pip_ensured := by
  unfold _add_to_globals
  cases st.other_globals with
  | none => rfl
  | some g => simp only []; split <;> simp

@[simp] theorem _add_to_globals_di (env : Env) (st : PState) (name : String)
    (subs : List String) (ver : String) :
    (_add_to_globals env st name subs ver).1.deps_imported = st.deps_imported := by
  unfold _add_to_globals
  cases st.other_globals with
  | none => rfl
  | some g => simp only []; split <;> simp

/-- The submodule loop returns normally when every requested submodule
resolves. -/
theorem addSubs_ok_snd (env : Env) (name : String) (subs : List String)
    (h : ∀ s ∈ subs, env.importSub name s = true) : ∀ (st : PState),
    (addSubs env st name subs).2 = .ok () := by
  induction subs with
  | nil => intro st; rfl
  | cons s rest ih =>
    intro st
    have hs := h s (by simp)
    simp only [addSubs, hs, if_true]
    exact ih (fun x hx => h x (by simp [hx])) _

/-- The namespace exposure returns normally when every requested submodule
resolves. -/
theorem _add_to_globals_ok_snd (env : Env) (name : String) (subs : List String)
    (ver : String) (h : ∀ s ∈ subs, env.importSub name s = true) : ∀ (st : PState),
    (_add_to_globals env st name subs ver).2 = .ok () := by
  intro st
  unfold _add_to_globals
  cases st.other_globals with
  | none => rfl
  | some g =>
    simp only []
    split
    · rfl
    · exact addSubs_ok_snd env name subs h _

/-! ### Claim C1 -/

/-- Construction appends exactly one Dependency carrying the declared
name. -/
theorem mkDependency_fields (env : Env) (st : PState) (n p : String)
    (vr : Option String × Option String) :
    (mkDependency env st n p vr).1.deps = st.deps ++ [(mkDependency env st n p vr).2] ∧
    (mkDependency env st n p vr).2.name = n := by
  unfold mkDependency
  cases h : env.importMod n with
  | none => simp
  | some v =>
    simp only []
    split
    · simp
    · simp

/--
C1.  Declaring the same module name twice through FROM (and init delegates
to FROM) returns the identical Dependency: the second call ignores its pip
name and version range arguments (the second spec is arbitrary apart from
its name), performs no import attempt (its environment is arbitrary and
unused), and leaves both the registry state and the first Dependency
unchanged.
-/
theorem FROM_second_declaration_idempotent (env env2 : Env) (st : PState)
    (m m2 : ModuleSpec) (h : specName m2 = specName m) :
    FROM env2 (FROM env st m).1 m2 = FROM env st m := by
  unfold FROM
  cases hl : lookupDep st.deps (specName m) with
  | some d => simp [h, hl]
  | none =>
    simp only [h, hl]
    have hf := mkDependency_fields env st (specName m) (specPip m) (specRange m)
    have hlk : lookupDep (mkDependency env st (specName m) (specPip m) (specRange m)).1.deps
        (specName m) = some (mkDependency env st (specName m) (specPip m) (specRange m)).2 := by
      unfold lookupDep at hl ⊢
      rw [hf.1, List.find?_append, hl]
      simp [List.find?, hf.2]
    simp [hlk]

/-- Witness for C1: a plain declaration followed by a re-declaration with a
different pip name. -/
theorem FROM_second_declaration_witness :
    FROM envNoModules (FROM envNoModules stEmpty (.plain ("m"))).1
      (.withPip ("m") ("other-pip")) = FROM envNoModules stEmpty (.plain ("m")) :=
  FROM_second_declaration_idempotent envNoModules envNoModules stEmpty
    (.plain ("m")) (.withPip ("m") ("other-pip")) rfl

/-! ### Claim C3 -/

/-- install_me returns immediately on an imported dependency. -/
theorem install_me_already_imported (env : Env) (st : PState) (d : Dependency)
    (h : d.imported = true) : install_me env st d = (st, d, .ok true) := by
  simp [install_me, h]

/-- The pipeline loop is the identity on a registry of imported
dependencies. -/
theorem installLoop_all_imported (env : Env) : ∀ (ds : List Dependency) (st : PState),
    (∀ d ∈ ds, d.imported = true) → installLoop env st ds = (st, ds, .ok ()) := by
  intro ds
  induction ds with
  | nil => intro st _; rfl
  | cons d rest ih =>
    intro st h
    simp [installLoop, install_me_already_imported env st d (h d (by simp)),
      ih st (fun x hx => h x (by simp [hx]))]

/--
C3.  When every registered Dependency is already imported, the blocking
entry point install_all performs zero subprocess invocations (the record of
executed commands is unchanged, so no install_me reaches _execute) and
returns true.
-/
theorem install_all_all_imported_no_exec (env : Env) (st : PState)
    (h : ∀ d ∈ st.deps, d.imported = true) :
    (install_all env st).2 = .ok true ∧ (install_all env st).1.execs = st.execs := by
  have hall : st.deps.all (fun d => d.imported) = true :=
    List.all_eq_true.mpr (fun d hd => h d hd)
  have hl := installLoop_all_imported env st.deps
    { st with trace := st.trace ++ st.printers.map (fun p => Event.prepare p) }
    (fun d hd => h d hd)
  unfold install_all install_all_generator
  simp only [hl]
  simp [hall]
  split <;> simp [hall] <;> exact fun x hx => h x hx

/-- Witness for C3: one imported dependency, arbitrary environment. -/
theorem install_all_all_imported_witness :
    (install_all envNoModules stAllImported).2 = .ok true ∧
    (install_all envNoModules stAllImported).1.execs = stAllImported.execs :=
  install_all_all_imported_no_exec envNoModules stAllImported (by decide)

/-! ### Claim C6 -/

/--
C6.  The claim states the invariant that imported implies the module
version satisfies the declared range.  The code violates it: declare m
with lower bound 2.0 while version 1.0 is installed (wrong_version is
set), then run install_me in an environment where the pip invocation fails
and the stale module re-imports at version 1.0; install_me tolerates the
installer failure in the wrong_version state, re-imports the old module
and marks it imported without re-checking the range, so the resulting
Dependency is imported while its module version is out of the declared
range.
-/
theorem imported_version_invariant_counterexample :
    (install_me envWrongVersion stWrong depWrong).2.1.imported = true ∧
    versionOutOfRange (install_me envWrongVersion stWrong depWrong).2.1.version
      (install_me envWrongVersion stWrong depWrong).2.1.version_range = true := by decide

/--
C6 (amended).  Construction preserves the invariant: a Dependency that
__post_init__ marks imported has its module version within the declared
range (as judged by the wrong-version test of the source).  install_me,
however, sets imported without re-checking the version: when it recovers a
wrong_version dependency whose re-import succeeds, it marks the dependency
imported, clears wrong_version and sets the sticky restart flag instead —
until a restart the stale in-process module may report an out-of-range
version.
-/
theorem imported_version_invariant_amended :
    (∀ (env : Env) (st : PState) (n p : String) (vr : Option String × Option String),
      (mkDependency env st n p vr).2.imported = true →
      versionOutOfRange (mkDependency env st n p vr).2.version
        (mkDependency env st n p vr).2.version_range = false) ∧
    (∀ (env : Env) (st : PState) (d : Dependency) (v : String),
      d.imported = false → d.wrong_version = true → st.pip_ensured = true →
      env.reimport d.name = some v →
      (∀ s ∈ d.submodules, env.importSub d.name s = true) →
      (install_me env st d).1.restart = true ∧
      (install_me env st d).2.1.imported = true ∧
      (install_me env st d).2.1.wrong_version = false) := by
  constructor
  · intro env st n p vr h
    unfold mkDependency at h ⊢
    cases hm : env.importMod n with
    | none => simp [hm] at h
    | some v =>
      by_cases hv : versionOutOfRange v vr = true
      · simp [hm, hv] at h
      · simp only [Bool.not_eq_true] at hv
        simp [hm, hv, Dependency.version]
  · intro env st d v him hwv hpe hre hsub
    have hep : _ensure_pip env st = (st, .ok ()) := by simp [_ensure_pip, hpe]
    have hok := _add_to_globals_ok_snd env d.name d.submodules v hsub
    by_cases hrc : (env.runCmd (installCmd d)).2 = 0 <;>
      simp [install_me, him, hep, _execute, hrc, hwv, hre, hok]

/-- Witness for the amended C6: an in-range construction, then the
wrong-version recovery of depWrong with pip already ensured. -/
theorem imported_version_invariant_amended_witness :
    (versionOutOfRange (mkDependency envWrongVersion stEmpty ("m") ("m") (none, none)).2.version
       (mkDependency envWrongVersion stEmpty ("m") ("m") (none, none)).2.version_range = false) ∧
    ((install_me envWrongVersion { stEmpty with pip_ensured := true } depWrong).1.restart = true ∧
     (install_me envWrongVersion { stEmpty with pip_ensured := true } depWrong).2.1.imported = true ∧
     (install_me envWrongVersion { stEmpty with pip_ensured := true } depWrong).2.1.wrong_version = false) :=
  ⟨imported_version_invariant_amended.1 envWrongVersion stEmpty ("m") ("m") (none, none) (by decide),
   imported_version_invariant_amended.2 envWrongVersion { stEmpty with pip_ensured := true }
     depWrong ("1.0") (by decide) (by decide) rfl (by decide) (by decide)⟩

/-! ### Claim C5 -/

/-- When pip is not importable, pip was not yet ensured and ensurepip exits
non-zero, install_me raises ModuleFatalException after the single ensurepip
invocation, leaving the dependency untouched. -/
theorem install_me_bootstrap_fatal (env : Env) (st : PState) (d : Dependency)
    (him : d.imported = false) (hpe : st.pip_ensured = false)
    (hpi : env.pipImportable = false) (hens : (env.runCmd ensurepipCmd).2 ≠ 0) :
    (install_me env st d).2.2 =
      .error (.moduleFatal (("Pip Fatal Exception: ") ++ cpeStr (env.runCmd ensurepipCmd).2)) ∧
    (install_me env st d).2.1 = d ∧
    (install_me env st d).1.execs = st.execs ++ [ensurepipCmd] := by
  simp [install_me, him, _ensure_pip, hpe, hpi, _execute, hens]

/-- The pipeline loop propagates the bootstrap failure of its first
unimported dependency: only ensurepip was invoked and the registry entries
are unchanged. -/
theorem installLoop_bootstrap_fatal (env : Env)
    (hpi : env.pipImportable = false) (hens : (env.runCmd ensurepipCmd).2 ≠ 0) :
    ∀ (ds : List Dependency) (st : PState), st.pip_ensured = false →
    (∃ d, d ∈ ds ∧ d.imported = false) →
    (installLoop env st ds).2.2 =
      .error (.moduleFatal (("Pip Fatal Exception: ") ++ cpeStr (env.runCmd ensurepipCmd).2)) ∧
    (installLoop env st ds).2.1 = ds ∧
    (installLoop env st ds).1.execs = st.execs ++ [ensurepipCmd] := by
  intro ds
  induction ds with
  | nil => intro st hpe h; exact absurd h (by simp)
  | cons d rest ih =>
    intro st hpe hex
    by_cases hdi : d.imported = true
    · have hrest : ∃ x, x ∈ rest ∧ x.imported = false := by
        obtain ⟨x, hx, hxi⟩ := hex
        rcases List.mem_cons.mp hx with he | hm
        · rw [he] at hxi; rw [hxi] at hdi; cases hdi
        · exact ⟨x, hm, hxi⟩
      have hr := ih st hpe hrest
      simp [installLoop, install_me_already_imported env st d hdi, hr.1, hr.2.1, hr.2.2]
    · simp only [Bool.not_eq_true] at hdi
      have hf := install_me_bootstrap_fatal env st d hdi hpe hpi hens
      simp [installLoop, hf.1, hf.2.1, hf.2.2]

/--
C5.  When the package-manager bootstrap fails deterministically (pip not
importable and the ensurepip invocation exits non-zero) and at least one
registered dependency still needs installing, both pipeline entry points
raise ModuleFatalException to the caller, the only command executed during
the run is the ensurepip bootstrap, and no dependency installer invocation
is executed.
-/
theorem bootstrap_failure_fatal (env : Env) (st : PState)
    (hpe : st.pip_ensured = false) (hpi : env.pipImportable = false)
    (hens : (env.runCmd ensurepipCmd).2 ≠ 0)
    (hsome : ∃ d, d ∈ st.deps ∧ d.imported = false) :
    ∃ msg,
      (install_all_generator env st).2 = .error (.moduleFatal msg) ∧
      (install_all env st).2 = .error (.moduleFatal msg) ∧
      (install_all_generator env st).1.execs = st.execs ++ [ensurepipCmd] ∧
      ∀ d ∈ st.deps,
        installCmd d ∉ (install_all_generator env st).1.execs.drop st.execs.length := by
  have hl := installLoop_bootstrap_fatal env hpi hens st.deps
    { st with trace := st.trace ++ st.printers.map (fun p => Event.prepare p) }
    (by simpa using hpe) hsome
  refine ⟨("Pip Fatal Exception: ") ++ cpeStr (env.runCmd ensurepipCmd).2, ?_, ?_, ?_, ?_⟩
  · unfold install_all_generator
    simp [hl.1]
  · unfold install_all install_all_generator
    simp [hl.1]
  · unfold install_all_generator
    simp [hl.1, hl.2.2]
  · intro d hd
    unfold install_all_generator
    simp only [hl.1]
    simp [hl.2.2, List.drop_left]
    intro heq
    have := congrArg List.length heq
    simp [installCmd, ensurepipCmd] at this
  
/-- Witness for C5: one unimported dependency, pip missing, ensurepip
failing. -/
theorem bootstrap_failure_fatal_witness :
    ∃ msg,
      (install_all_generator envNoPip stNoPip).2 = .error (.moduleFatal msg) ∧
      (install_all envNoPip stNoPip).2 = .error (.moduleFatal msg) ∧
      (install_all_generator envNoPip stNoPip).1.execs = stNoPip.execs ++ [ensurepipCmd] ∧
      ∀ d ∈ stNoPip.deps,
        installCmd d ∉ (install_all_generator envNoPip stNoPip).1.execs.drop stNoPip.execs.length :=
  bootstrap_failure_fatal envNoPip stNoPip rfl rfl (by decide) ⟨depU, by decide, rfl⟩

/-! ### Claim C4 -/

/-- When the installer invocation exits non-zero for a dependency that is
not in wrong_version state, install_me reports failure without raising and
leaves the dependency unchanged. -/
theorem install_me_install_failed (env : Env) (st : PState) (d : Dependency)
    (him : d.imported = false) (hwv : d.wrong_version = false)
    (hpe : st.pip_ensured = true)
    (hcmd : (env.runCmd (installCmd d)).2 ≠ 0) :
    (install_me env st d).2.2 = .ok false ∧
    (install_me env st d).2.1 = d ∧
    (install_me env st d).1.pip_ensured = st.pip_ensured ∧
    (install_me env st d).1.deps = st.deps ∧
    (install_me env st d).1.printers = st.printers := by
  simp [install_me, him, hwv, _ensure_pip, hpe, _execute, hcmd]

/-- When the installer invocation exits zero and the re-import and every
submodule exposure succeed, install_me reports success and marks the
dependency installed and imported. -/
theorem install_me_install_ok (env : Env) (st : PState) (d : Dependency) (v : String)
    (him : d.imported = false) (hpe : st.pip_ensured = true)
    (hcmd : (env.runCmd (installCmd d)).2 = 0)
    (hre : env.reimport d.name = some v)
    (hsub : ∀ s ∈ d.submodules, env.importSub d.name s = true) :
    (install_me env st d).2.2 = .ok true ∧
    (install_me env st d).2.1 =
      { d with module := some v, installed := true, imported := true, wrong_version := false } ∧
    (install_me env st d).1.deps = st.deps := by
  have hok := _add_to_globals_ok_snd env d.name d.submodules v hsub
  by_cases hdw : d.wrong_version = true <;>
    simp [install_me, him, _ensure_pip, hpe, _execute, hcmd, hre, hdw, hok]

/--
C4.  In one pipeline run over the registry holding a then b, where the
installer invocation for a exits non-zero (a not in wrong_version state
and its subsequent import unavailable) while the install of b succeeds, no
exception escapes: the run completes normally with result False from
install_all, b ends imported, a ends unimported, and the aggregate
DEPENDENCIES_IMPORTED flag is false.
-/
theorem partial_failure_contained (env : Env) (st : PState) (a b : Dependency) (vb : String)
    (hdeps : st.deps = [a, b])
    (haimp : a.imported = false) (hawv : a.wrong_version = false)
    (hbimp : b.imported = false)
    (hpe : st.pip_ensured = true)
    (hacmd : (env.runCmd (installCmd a)).2 ≠ 0)
    (hare : env.reimport a.name = none)
    (hbcmd : (env.runCmd (installCmd b)).2 = 0)
    (hbre : env.reimport b.name = some vb)
    (hbsub : ∀ s ∈ b.submodules, env.importSub b.name s = true) :
    (install_all env st).2 = .ok false ∧
    (install_all env st).1.deps.map (fun d => d.imported) = [false, true] ∧
    (install_all env st).1.deps_imported = false := by
  have hA := install_me_install_failed env
    { st with trace := st.trace ++ st.printers.map (fun p => Event.prepare p) }
    a haimp hawv (by simp [hpe]) hacmd
  have hB := install_me_install_ok env
    (install_me env { st with trace := st.trace ++ st.printers.map (fun p => Event.prepare p) } a).1
    b vb hbimp (by rw [hA.2.2.1]; simp [hpe]) hbcmd hbre hbsub
  simp only [hdeps] at hA hB
  unfold install_all install_all_generator
  simp only [hdeps]
  simp [installLoop, hA.1, hA.2.1, hB.1, hB.2.1, haimp]

/-- Witness for C4: alpha fails to install, beta succeeds. -/
theorem partial_failure_contained_witness :
    (install_all envPartial stPartial).2 = .ok false ∧
    (install_all envPartial stPartial).1.deps.map (fun d => d.imported) = [false, true] ∧
    (install_all envPartial stPartial).1.deps_imported = false :=
  partial_failure_contained envPartial stPartial depA0 depB0 ("1.0") rfl rfl rfl rfl rfl
    (by decide) (by decide) (by decide) (by decide) (by decide)

/-! ### Claim C10: try-block trace lemmas -/

theorem tryStep_rfl (st : PState) : TryStep st st :=
  ⟨rfl, [], by simp, by simp⟩

theorem tryStep_trans {a b c : PState} (h1 : TryStep a b) (h2 : TryStep b c) : TryStep a c := by
  obtain ⟨hp1, d1, ht1, hs1⟩ := h1
  obtain ⟨hp2, d2, ht2, hs2⟩ := h2
  refine ⟨hp2.trans hp1, d1 ++ d2, by rw [ht2, ht1, List.append_assoc], fun e he => ?_⟩
  rcases List.mem_append.mp he with h | h
  exacts [hs1 e h, hs2 e h]

theorem tryStep_log {st : PState} {l : String} (h : l ≠ bannerFailed) :
    TryStep st (_log st l) := by
  refine ⟨rfl, [.log l], rfl, fun e he => ?_⟩
  simp at he
  exact ⟨l, he, h⟩

/-- Every streamed subprocess line is a safe log. -/
theorem logSafe_stream (lines : List String) :
    ∀ e ∈ lines.map (fun l => Event.log ((">> ") ++ l)), safeEv e := by
  intro e he
  obtain ⟨l, _, rfl⟩ := List.mem_map.mp he
  exact ⟨(">> ") ++ l, rfl, string_append_ne_of_head _ _ _ 0 '>' rfl (by decide)⟩

theorem tryStep_execute (env : Env) (st : PState) (args : List String) :
    TryStep st (_execute env st args).1 := by
  unfold _execute
  dsimp only
  split
  · refine ⟨rfl, (env.runCmd args).1.map (fun l => Event.log ((">> ") ++ l)) ++
      [Event.log (("Exit code: ") ++ toString (env.runCmd args).2)],
      by simp [_log], fun e he => ?_⟩
    rcases List.mem_append.mp he with h | h
    · exact logSafe_stream _ e h
    · simp at h
      exact h ▸ ⟨_, rfl, string_append_ne_of_head _ _ _ 0 'E' rfl (by decide)⟩
  · exact ⟨rfl, (env.runCmd args).1.map (fun l => Event.log ((">> ") ++ l)), by simp,
      logSafe_stream _⟩

theorem tryStep_ensure_pip (env : Env) (st : PState) : TryStep st (_ensure_pip env st).1 := by
  unfold _ensure_pip
  dsimp only
  split
  · exact tryStep_rfl st
  split
  · -- pip importable: optional upgrade failure logs, then the memo flag
    have h1 : TryStep st (_log st (("----- Upgrading PIP -----"))) := tryStep_log (by decide)
    have h2 := tryStep_trans h1 (tryStep_execute env _ upgradePipCmd)
    split
    · exact tryStep_trans (tryStep_trans h2 (tryStep_log (by decide))) (tryStep_log (by decide))
    · exact h2
  · -- bootstrap path
    have h1 : TryStep st (_log st ("\n----- Pip python package not found. Installing. -----")) :=
      tryStep_log (by decide)
    have h2 := tryStep_trans h1 (tryStep_execute env _ ensurepipCmd)
    split
    · exact tryStep_trans h2 (tryStep_log
        (string_append_ne_of_head _ _ _ 0 'M' rfl (by decide)))
    · exact h2
    · have h3 := tryStep_trans h2 (tryStep_execute env _ upgradePipCmd)
      split
      · exact tryStep_trans h3 (tryStep_log
          (string_append_ne_of_head _ _ _ 0 'M' rfl (by decide)))
      · exact h3
      · exact tryStep_trans h3 (tryStep_log (by decide))

theorem tryStep_setGlobalEntry (st : PState) (k v : String) :
    TryStep st (setGlobalEntry st k v) :=
  ⟨by simp, [], by simp, by simp⟩

theorem tryStep_addSubs (env : Env) (name : String) : ∀ (subs : List String) (st : PState),
    TryStep st (addSubs env st name subs).1 := by
  intro subs
  induction subs with
  | nil => exact fun st => tryStep_rfl st
  | cons s rest ih =>
    intro st
    unfold addSubs
    dsimp only
    split
    · exact tryStep_trans (tryStep_setGlobalEntry st _ _) (ih _)
    · exact tryStep_trans
        (tryStep_log (by exact string_append_ne_of_head _ _ _ 0 'E' rfl (by decide)))
        (tryStep_log (by exact string_append_ne_of_head _ _ _ 0 'S' rfl (by decide)))

theorem tryStep_add_to_globals (env : Env) (st : PState) (name : String)
    (subs : List String) (ver : String) :
    TryStep st (_add_to_globals env st name subs ver).1 := by
  unfold _add_to_globals
  cases st.other_globals with
  | none => exact tryStep_rfl st
  | some g =>
    dsimp only
    split
    · exact tryStep_rfl st
    · exact tryStep_trans ⟨by simp, [], by simp, by simp⟩ (tryStep_addSubs env name subs _)

theorem tryStep_install_me (env : Env) (st : PState) (d : Dependency) :
    TryStep st (install_me env st d).1 := by
  unfold install_me
  dsimp only
  split
  · exact tryStep_rfl st
  · have hep : TryStep st (_ensure_pip env st).1 := tryStep_ensure_pip env st
    split
    · exact hep
    · have h1 : TryStep st (_log (_ensure_pip env st).1 (installingHeader d)) :=
        tryStep_trans hep (tryStep_log (by
          unfold installingHeader
          exact string_append_ne_of_head _ _ _ 1 '-' rfl (by decide)))
      have h2 := tryStep_trans h1 (tryStep_execute env _ (installCmd d))
      split
      · -- installer failed and not wrong_version: failure log, stop
        rename_i hcont
        split at hcont
        · cases hcont
        · split at hcont
          · cases hcont
          · exact tryStep_trans h2 (tryStep_log
              (string_append_ne_of_rev _ _ _ 0 '.' rfl (by decide)))
      · -- proceeding with the re-import
        rename_i stc hcont
        have h3 : TryStep st stc := by
          split at hcont
          · cases hcont; exact h2
          · split at hcont
            · cases hcont
              exact tryStep_trans h2 (tryStep_log
                (string_append_ne_of_rev _ _ _ 0 '.' rfl (by decide)))
            · cases hcont
        split
        · -- import succeeded
          have h4 : TryStep st (if d.wrong_version = true
              then _log { stc with restart := true } msgReload else stc) := by
            split
            · exact tryStep_trans (tryStep_trans h3 ⟨by simp, [], by simp, by simp⟩)
                (tryStep_log (by decide))
            · exact h3
          split
          · exact tryStep_trans h4 (tryStep_add_to_globals env _ _ _ _)
          · exact tryStep_trans (tryStep_trans h4 (tryStep_add_to_globals env _ _ _ _))
              (tryStep_log (by decide))
        · -- import failed
          exact tryStep_trans h3 (tryStep_log (by
            unfold msgImportFailed
            exact string_append_ne_of_rev _ _ _ 0 '.' rfl (by decide)))

theorem tryStep_installLoop (env : Env) : ∀ (ds : List Dependency) (st : PState),
    TryStep st (installLoop env st ds).1 := by
  intro ds
  induction ds with
  | nil => exact fun st => tryStep_rfl st
  | cons d rest ih =>
    intro st
    unfold installLoop
    dsimp only
    split
    · exact tryStep_install_me env st d
    · exact tryStep_trans (tryStep_install_me env st d) (ih _)

/-! ### Claim C10: finally-block trace lemmas -/

@[simp] theorem finallyBlock_trace (env : Env) (st : PState) :
    (finallyBlock env st).trace = st.trace ++ finallyDelta env st := rfl

theorem bpy_no_banner (env : Env) : ∀ e ∈ bpyInfoDelta env, e ≠ Event.log bannerFailed := by
  intro e he
  unfold bpyInfoDelta at he
  split at he
  · simp at he
    rcases he with rfl | rfl | rfl | rfl | rfl | rfl
    · decide
    · simp only [ne_eq, Event.log.injEq]
      exact string_append_ne_of_head _ _ _ 0 ' ' rfl (by decide)
    · simp only [ne_eq, Event.log.injEq]
      exact string_append_ne_of_head _ _ _ 0 ' ' rfl (by decide)
    · simp only [ne_eq, Event.log.injEq]
      exact string_append_ne_of_head _ _ _ 0 ' ' rfl (by decide)
    · simp only [ne_eq, Event.log.injEq]
      exact string_append_ne_of_head _ _ _ 0 ' ' rfl (by decide)
    · decide
  · simp at he

theorem bpy_no_finish (env : Env) : ∀ e ∈ bpyInfoDelta env, Event.isFinish e = false := by
  intro e he
  unfold bpyInfoDelta at he
  split at he
  · simp at he
    rcases he with rfl | rfl | rfl | rfl | rfl | rfl <;> rfl
  · simp at he

theorem imported_no_banner (env : Env) (deps : List Dependency) :
    ∀ e ∈ importedModulesDelta env deps, e ≠ Event.log bannerFailed := by
  intro e he
  obtain ⟨d, _, hd⟩ := List.mem_filterMap.mp he
  split at hd
  · cases hd
    simp only [ne_eq, Event.log.injEq]
    exact string_append_ne_of_head _ _ _ 0 ' ' rfl (by decide)
  · cases hd

theorem imported_no_finish (env : Env) (deps : List Dependency) :
    ∀ e ∈ importedModulesDelta env deps, Event.isFinish e = false := by
  intro e he
  obtain ⟨d, _, hd⟩ := List.mem_filterMap.mp he
  split at hd
  · cases hd; rfl
  · cases hd

theorem finallyDelta_count (env : Env) (st : PState) :
    (finallyDelta env st).count (Event.log bannerFailed) = 1 := by
  have hA : (bpyInfoDelta env).count (Event.log bannerFailed) = 0 :=
    List.count_eq_zero.mpr (fun hm => bpy_no_banner env _ hm rfl)
  have hB : (importedModulesDelta env st.deps).count (Event.log bannerFailed) = 0 :=
    List.count_eq_zero.mpr (fun hm => imported_no_banner env st.deps _ hm rfl)
  have hF : (st.printers.map (fun p => Event.finish p)).count (Event.log bannerFailed) = 0 :=
    List.count_eq_zero.mpr (fun hm => by
      obtain ⟨p, _, h⟩ := List.mem_map.mp hm
      cases h)
  have e1 : ¬ Event.log bannerFailed = Event.log sysInfoHeader := by decide
  have e2 : ¬ Event.log bannerFailed = Event.log ((" sys.executable: ") ++ pybin) := by decide
  have e3 : ¬ Event.log bannerFailed = Event.log ("\nImported modules:") := by decide
  have e4 : ∀ x : String,
      ¬ Event.log bannerFailed = Event.log (("\n platform.machine: ") ++ x) := by
    intro x h
    exact string_append_ne_of_head ("\n platform.machine: ") x bannerFailed 1 ' '
      rfl (by decide) (Event.log.inj h).symm
  have e5 : ∀ x : String,
      ¬ Event.log bannerFailed = Event.log (("\n platform.platform: ") ++ x) := by
    intro x h
    exact string_append_ne_of_head ("\n platform.platform: ") x bannerFailed 1 ' '
      rfl (by decide) (Event.log.inj h).symm
  have e6 : ∀ x : String,
      ¬ Event.log bannerFailed = Event.log (("\n platform.processor: ") ++ x) := by
    intro x h
    exact string_append_ne_of_head ("\n platform.processor: ") x bannerFailed 1 ' '
      rfl (by decide) (Event.log.inj h).symm
  unfold finallyDelta
  simp [List.count_append, List.count_cons, hA, hB, hF, e1, e2, e3, e4 _, e5 _, e6 _]

theorem finallyDelta_filter (env : Env) (st : PState) :
    (finallyDelta env st).filter Event.isFinish = st.printers.map (fun p => Event.finish p) := by
  have hA : (bpyInfoDelta env).filter Event.isFinish = [] :=
    List.filter_eq_nil_iff.mpr (fun e he => by simp [bpy_no_finish env e he])
  have hB : (importedModulesDelta env st.deps).filter Event.isFinish = [] :=
    List.filter_eq_nil_iff.mpr (fun e he => by simp [imported_no_finish env st.deps e he])
  have hF : (st.printers.map (fun p => Event.finish p)).filter Event.isFinish =
      st.printers.map (fun p => Event.finish p) :=
    List.filter_eq_self.mpr (fun e he => by
      obtain ⟨p, _, rfl⟩ := List.mem_map.mp he
      rfl)
  unfold finallyDelta
  simp [List.filter_append, hA, hB, hF, Event.isFinish]

theorem finallyDelta_mem_header (env : Env) (st : PState) :
    Event.log sysInfoHeader ∈ finallyDelta env st := by
  unfold finallyDelta
  simp

/-- Assembly step for C10: whenever the state reaching the finally block
extends the initial trace by banner-free, finish-free events, the finished
run satisfies the finally-path properties. -/
theorem c10_leaf (env : Env) (st X : PState) (pre mid : List Event) (P : Prop)
    (htrX : X.trace = st.trace ++ pre ++ mid)
    (hprX : X.printers = st.printers)
    (hc : pre.count (Event.log bannerFailed) = 0)
    (hcm : mid.count (Event.log bannerFailed) = 0)
    (hf : pre.filter Event.isFinish = [])
    (hfm : mid.filter Event.isFinish = [])
    (him : P → Event.log bannerSuccess ∈ mid) :
    ∃ d, (finallyBlock env X).trace = st.trace ++ d ∧
      d.count (Event.log bannerFailed) = 1 ∧
      d.filter Event.isFinish = st.printers.map (fun p => Event.finish p) ∧
      Event.log sysInfoHeader ∈ d ∧
      (P → Event.log bannerSuccess ∈ d) := by
  refine ⟨pre ++ mid ++ finallyDelta env X, ?_, ?_, ?_, ?_, ?_⟩
  · simp [htrX, List.append_assoc]
  · simp [List.count_append, hc, hcm, finallyDelta_count env X]
  · simp [List.filter_append, hf, hfm, finallyDelta_filter env X, hprX]
  · simp [List.mem_append, finallyDelta_mem_header env X]
  · intro hp
    have := him hp
    simp [List.mem_append]
    tauto

/--
C10.  On every drained run of install_all_generator — successful, partially
failed, or ended by a propagating exception — the finally path runs exactly
once: the trace appended by the run contains the System Info diagnostic
header, exactly one Installation Failed banner, and exactly one finish
call per registered printer in registration order (and finish occurs
nowhere outside the finally block); in particular a fully successful run
(result True) also logs the success banner, so it logs both banners.
-/
theorem finally_path_always_runs (env : Env) (st : PState) :
    ∃ d, (install_all_generator env st).1.trace = st.trace ++ d ∧
      d.count (Event.log bannerFailed) = 1 ∧
      d.filter Event.isFinish = st.printers.map (fun p => Event.finish p) ∧
      Event.log sysInfoHeader ∈ d ∧
      ((install_all_generator env st).2 = .ok true → Event.log bannerSuccess ∈ d) := by
  obtain ⟨hpr, dt, htr, hsafe⟩ := tryStep_installLoop env st.deps
    { st with trace := st.trace ++ st.printers.map (fun p => Event.prepare p) }
  have hdtc : dt.count (Event.log bannerFailed) = 0 :=
    List.count_eq_zero.mpr (fun hm => by
      obtain ⟨l, he, hne⟩ := hsafe _ hm
      exact hne (Event.log.inj he).symm)
  have hdtf : dt.filter Event.isFinish = [] :=
    List.filter_eq_nil_iff.mpr (fun e hm => by
      obtain ⟨l, rfl, _⟩ := hsafe e hm
      simp [Event.isFinish])
  have hpc : (st.printers.map (fun p => Event.prepare p)).count (Event.log bannerFailed) = 0 :=
    List.count_eq_zero.mpr (fun hm => by
      obtain ⟨p, _, h⟩ := List.mem_map.mp hm
      cases h)
  have hpf : (st.printers.map (fun p => Event.prepare p)).filter Event.isFinish = [] :=
    List.filter_eq_nil_iff.mpr (fun e hm => by
      obtain ⟨p, _, rfl⟩ := List.mem_map.mp hm
      simp [Event.isFinish])
  have hpr2 : (installLoop env
      { st with trace := st.trace ++ st.printers.map (fun p => Event.prepare p) }
      st.deps).1.printers = st.printers := by simpa using hpr
  have htr2 : (installLoop env
      { st with trace := st.trace ++ st.printers.map (fun p => Event.prepare p) }
      st.deps).1.trace =
      st.trace ++ (st.printers.map (fun p => Event.prepare p) ++ dt) := by
    simpa [List.append_assoc] using htr
  have hcpe : ∀ c : Int, ([Event.log (cpeStr c)]).count (Event.log bannerFailed) = 0 := by
    intro c
    refine List.count_eq_zero.mpr (fun hm => ?_)
    have he := List.mem_singleton.mp hm
    exact string_append_ne_of_rev _ (".") bannerFailed 0 '.' rfl (by decide)
      (Event.log.inj he).symm
  unfold install_all_generator
  dsimp only
  cases hL : (installLoop env
      { st with trace := st.trace ++ st.printers.map (fun p => Event.prepare p) }
      st.deps).2.2 with
  | ok u =>
    dsimp only
    split
    · split
      · -- success with the sticky restart flag set
        apply c10_leaf env st _ (st.printers.map (fun p => Event.prepare p) ++ dt)
          [Event.log bannerSuccess, Event.log msgReloadAll]
        · simp [htr2, List.append_assoc]
        · simp [hpr2]
        · simp [List.count_append, hpc, hdtc]
        · decide
        · simp [List.filter_append, hpf, hdtf]
        · decide
        · intro _
          simp
      · -- success without the restart notice
        apply c10_leaf env st _ (st.printers.map (fun p => Event.prepare p) ++ dt)
          [Event.log bannerSuccess]
        · simp [htr2, List.append_assoc]
        · simp [hpr2]
        · simp [List.count_append, hpc, hdtc]
        · decide
        · simp [List.filter_append, hpf, hdtf]
        · decide
        · intro _
          simp
    · -- at least one dependency still unimported
      apply c10_leaf env st _ (st.printers.map (fun p => Event.prepare p) ++ dt) []
      · simp [htr2, List.append_assoc]
      · simp [hpr2]
      · simp [List.count_append, hpc, hdtc]
      · decide
      · simp [List.filter_append, hpf, hdtf]
      · decide
      · intro hp
        exact absurd hp (by simp)
  | error e =>
    dsimp only
    cases e with
    | moduleFatal msg =>
      apply c10_leaf env st _ (st.printers.map (fun p => Event.prepare p) ++ dt) []
      · simp [htr2, List.append_assoc]
      · simp [hpr2]
      · simp [List.count_append, hpc, hdtc]
      · decide
      · simp [List.filter_append, hpf, hdtf]
      · decide
      · intro hp
        exact absurd hp (by simp)
    | subModuleNotFound msg =>
      apply c10_leaf env st _ (st.printers.map (fun p => Event.prepare p) ++ dt) []
      · simp [htr2, List.append_assoc]
      · simp [hpr2]
      · simp [List.count_append, hpc, hdtc]
      · decide
      · simp [List.filter_append, hpf, hdtf]
      · decide
      · intro hp
        exact absurd hp (by simp)
    | calledProcessError c =>
      apply c10_leaf env st _ (st.printers.map (fun p => Event.prepare p) ++ dt)
        [Event.log (cpeStr c)]
      · simp [htr2, List.append_assoc]
      · simp [hpr2]
      · simp [List.count_append, hpc, hdtc]
      · exact hcpe c
      · simp [List.filter_append, hpf, hdtf]
      · simp [Event.isFinish]
      · intro hp
        exact absurd hp (by simp)

/-- Witness for C10: the empty registry runs successfully, and the run
still logs the failure banner and broadcasts finish. -/
theorem finally_path_always_runs_witness :
    ∃ d, (install_all_generator envNoModules stEmpty).1.trace = stEmpty.trace ++ d ∧
      d.count (Event.log bannerFailed) = 1 ∧
      d.filter Event.isFinish = stEmpty.printers.map (fun p => Event.finish p) ∧
      Event.log sysInfoHeader ∈ d ∧
      ((install_all_generator envNoModules stEmpty).2 = .ok true →
        Event.log bannerSuccess ∈ d) :=
  finally_path_always_runs envNoModules stEmpty
